import Mathlib

/-!
# Verification of the SIH-2025 induction-planning engine

Shallow embedding of the rule-based induction planner implemented in
`neckHurts-main/routes/trains.js` (the `/api/induction` router: the fallback
optimizer, the alert generator, the what-if simulator, the external-optimizer
adapter, and the plan-generation handler) together with the mongoose schemas
(`train.model.js`, `inductionPlan.model.js`).

Modelling conventions:
* JavaScript numbers are modelled as `ℚ` (the concrete inputs used below are
  small integers, on which IEEE-754 arithmetic is exact); timestamps are `Int`
  milliseconds since the epoch.
* `Array.prototype.sort` is stable by the ECMAScript specification; with the
  comparators used in the source (`(a, b) => b.k - a.k`) it computes the unique
  stable descending reordering, embedded here as an insertion sort.
* The IEEE `NaN` produced by `0 / 0` is modelled by `Option`: a metrics field
  whose JS value is `NaN` is `none`.
* Wall-clock durations (`processingTimeMs`) are not modelled and are fixed
  to `0`; no property below concerns them.
* The per-entry human-readable `reasoning` string (a presentation artefact
  assembled by `generateReasoning`) is not modelled; no property below
  concerns it.
-/

namespace SIH

/-- `fitnessStatus` sub-document of a train (`train.model.js`).
`expiryDate` is optional because `generateAlerts` guards on its presence. -/
structure FitnessStatus where
  isValid : Bool
  expiryDate : Option Int
deriving DecidableEq

/-- `branding` sub-document of a train (`train.model.js`). -/
structure Branding where
  hasBranding : Bool
  brandingPriority : ℚ
deriving DecidableEq

/-- A train in the shape consumed by the fallback optimizer: the relevant
fields of the documents produced by `formatTrainsForAI` in `trains.js`. -/
structure Train where
  _id : String
  trainsetId : String
  fitnessStatus : FitnessStatus
  maintenanceStatus : String
  maintenanceDue : Bool
  isAvailableForService : Bool
  currentMileage : ℚ
  branding : Branding
  performanceScore : ℚ
  reliabilityScore : ℚ
  cleaningStatus : String
deriving DecidableEq

/-- JS `x || d` on numbers: `0` is falsy and is replaced by the default. -/
def jsOr (x d : ℚ) : ℚ := if x = 0 then d else x

/-- JS `Math.round x = ⌊x + 0.5⌋` (halves round toward `+∞`). -/
def jsRound (x : ℚ) : Int := ⌊x + 1/2⌋

/-- Insert one element into a list so that elements with a strictly larger key
stay in front of it: the insertion step of a stable descending sort. -/
def jsInsertDesc (key : α → Int) (a : α) : List α → List α
  | [] => [a]
  | b :: l => if key b ≤ key a then a :: b :: l else b :: jsInsertDesc key a l

/-- JS `arr.sort((x, y) => key y - key x)`: the stable sort by `key`
descending mandated by the ECMAScript specification. -/
def jsSortDesc (key : α → Int) : List α → List α
  | [] => []
  | a :: l => jsInsertDesc key a (jsSortDesc key l)

/-- The filter of `fallbackOptimization` (`trains.js` lines 625-629):
`train.fitnessStatus?.isValid && train.maintenanceStatus === 'OPERATIONAL'
&& train.isAvailableForService !== false`.  Note that, unlike the
`isServiceReady` method of `train.model.js`, it never looks at
`fitnessStatus.expiryDate`. -/
def serviceReady (t : Train) : Bool :=
  t.fitnessStatus.isValid && t.maintenanceStatus == "OPERATIONAL"
    && t.isAvailableForService

/-- `avgMileage` in `fallbackOptimization` (line 643): the mean of
`currentMileage` over the WHOLE input list `trains`, not over the filtered
pool. -/
def avgMileage (trains : List Train) : ℚ :=
  (trains.map Train.currentMileage).sum / (trains.length : ℚ)

/-- The score accumulated by `fallbackOptimization` (lines 632-657) before
rounding. -/
def rawScore (trains : List Train) (t : Train) : ℚ :=
  (if t.fitnessStatus.isValid then (30 : ℚ) else 0)
    + (if t.maintenanceStatus == "OPERATIONAL" then 25 else 0)
    + (if !t.maintenanceDue then 10 else 0)
    + max 0 (15 - |t.currentMileage - avgMileage trains| / 1000)
    + (if t.branding.hasBranding then jsOr t.branding.brandingPriority 1 * 2 else 0)
    + t.performanceScore * (1/10)
    + t.reliabilityScore * (1/10)
    + (if t.cleaningStatus == "CLEAN" then 5 else 0)

/-- One element of `scoredTrains` in `fallbackOptimization` (lines 659-663):
the referenced train id and the rounded score. -/
structure ScoredTrain where
  train : String
  score : Int
deriving DecidableEq

/-- `scoredTrains` of `fallbackOptimization`: filter to service-ready trains,
then score each one (`score: Math.round(score)`). -/
def scoredTrains (trains : List Train) : List ScoredTrain :=
  (trains.filter serviceReady).map
    (fun t => { train := t._id, score := jsRound (rawScore trains t) })

/-- The per-entry `constraints` sub-document of `inductionPlan.model.js`;
`brandingPriority` and `mileageBalance` are optional because the fallback
optimizer never sets them. -/
structure RankedConstraints where
  fitnessValid : Bool
  maintenanceReady : Bool
  cleaningStatus : String
  brandingPriority : Option ℚ
  mileageBalance : Option ℚ
deriving DecidableEq

/-- The constant `constraints` object attached to every ranked entry by
`fallbackOptimization` (lines 674-678). -/
def fallbackEntryConstraints : RankedConstraints :=
  { fitnessValid := true, maintenanceReady := true, cleaningStatus := "CLEAN",
    brandingPriority := none, mileageBalance := none }

/-- One entry of `rankedTrains` (`inductionPlan.model.js`, without the
unmodelled `reasoning` string). -/
structure RankedEntry where
  train : String
  rank : Nat
  confidenceScore : Int
  constraints : RankedConstraints
deriving DecidableEq

/-- `Math.min(100, Math.max(60, s))` (line 673). -/
def confClamp (s : Int) : Int := min 100 (max 60 s)

/-- The `.map((item, index) => ...)` of lines 669-679: ranks are assigned in
list order starting from `i` (the source starts from `index + 1 = 1`). -/
def toRankedEntries : Nat → List ScoredTrain → List RankedEntry
  | _, [] => []
  | i, s :: l =>
    { train := s.train, rank := i, confidenceScore := confClamp s.score,
      constraints := fallbackEntryConstraints } :: toRankedEntries (i + 1) l

/-- One alert (`generateAlerts`, lines 764-819). -/
structure Alert where
  type : String
  message : String
  trainId : String
  severity : Nat
deriving DecidableEq

/-- `Math.floor((expiryDate.getTime() - Date.now()) / 86400000)` (line 771):
floor division, so negative spans floor toward `-∞`. -/
def daysUntilExpiry (expiry now : Int) : Int := Int.fdiv (expiry - now) 86400000

/-- The fitness-expiry branch of `generateAlerts` (lines 768-795), in the
source's branch order: `0 ≤ d ≤ 3` first, then `3 < d ≤ 7`, then `d < 0`. -/
def fitnessAlerts (now : Int) (t : Train) : List Alert :=
  match t.fitnessStatus.expiryDate with
  | none => []
  | some expiry =>
    let d := daysUntilExpiry expiry now
    if d ≤ 3 ∧ d ≥ 0 then
      [{ type := "CRITICAL",
         message := t.trainsetId ++ " fitness certificate expires in " ++ toString d ++ " days",
         trainId := t.trainsetId, severity := 5 }]
    else if d ≤ 7 ∧ d > 3 then
      [{ type := "WARNING",
         message := t.trainsetId ++ " fitness certificate expires in " ++ toString d ++ " days",
         trainId := t.trainsetId, severity := 3 }]
    else if d < 0 then
      [{ type := "CRITICAL",
         message := t.trainsetId ++ " fitness certificate has expired",
         trainId := t.trainsetId, severity := 5 }]
    else []

/-- All alerts pushed for one train (`generateAlerts`, lines 767-816):
the fitness branch, then maintenance, then availability. -/
def trainAlerts (now : Int) (t : Train) : List Alert :=
  fitnessAlerts now t
    ++ (if t.maintenanceDue then
          [{ type := "WARNING", message := t.trainsetId ++ " maintenance is due",
             trainId := t.trainsetId, severity := 4 }]
        else [])
    ++ (if t.isAvailableForService = false then
          [{ type := "INFO", message := t.trainsetId ++ " is not available for service",
             trainId := t.trainsetId, severity := 2 }]
        else [])

/-- `generateAlerts` (lines 764-819): collect per-train alerts in input order,
then `alerts.sort((a, b) => b.severity - a.severity)`. -/
def generateAlerts (now : Int) (trains : List Train) : List Alert :=
  jsSortDesc (fun a => (a.severity : Int)) (trains.flatMap (trainAlerts now))

/-- The optimization metrics block (lines 686-691).  `averageConfidence` is
`none` when the JS value is the `NaN` produced by `0 / 0` on an empty
ranking. -/
structure OptimizationMetrics where
  totalTrainsEvaluated : Nat
  constraintsSatisfied : Nat
  averageConfidence : Option ℚ
  processingTimeMs : Nat
deriving DecidableEq

/-- Caller-supplied constraints are treated as an opaque object and only ever
passed through verbatim; key-value pairs are enough to model them. -/
abbrev Constraints := List (String × String)

/-- `modelInfo` / `aiModelInfo` (lines 692-696 and the mapping in
`callAIOptimizer`): `algorithm` and `parameters` are optional because the
external service's default `{ version: 'unknown' }` carries neither. -/
structure ModelInfo where
  version : String
  algorithm : Option String
  parameters : Option Constraints
deriving DecidableEq

/-- The value returned by `fallbackOptimization` (lines 683-697). -/
structure FallbackResult where
  rankedTrains : List RankedEntry
  alerts : List Alert
  metrics : OptimizationMetrics
  modelInfo : ModelInfo
deriving DecidableEq

/-- `fallbackOptimization(trains, constraints)` (lines 621-698) at clock
reading `now`. -/
def fallbackOptimization (trains : List Train) (constraints : Constraints)
    (now : Int) : FallbackResult :=
  let ranked := toRankedEntries 1 (jsSortDesc ScoredTrain.score (scoredTrains trains))
  { rankedTrains := ranked
    alerts := generateAlerts now trains
    metrics :=
      { totalTrainsEvaluated := trains.length
        constraintsSatisfied := ranked.length
        averageConfidence :=
          if ranked.length = 0 then none
          else some (((ranked.map RankedEntry.confidenceScore).sum : ℚ) / (ranked.length : ℚ))
        processingTimeMs := 0 }
    modelInfo :=
      { version := "1.0-fallback"
        algorithm := some "Rule-Based Weighted Scoring (Fallback)"
        parameters := some constraints } }

/-- A shallow-merge overlay `{ ...train, ...modifications }` as applied by
`fallbackSimulation` (line 705): any present top-level field replaces the
train's field wholesale (nested documents are replaced, not merged). -/
structure Modifications where
  _id : Option String := none
  trainsetId : Option String := none
  fitnessStatus : Option FitnessStatus := none
  maintenanceStatus : Option String := none
  maintenanceDue : Option Bool := none
  isAvailableForService : Option Bool := none
  currentMileage : Option ℚ := none
  branding : Option Branding := none
  performanceScore : Option ℚ := none
  reliabilityScore : Option ℚ := none
  cleaningStatus : Option String := none
deriving DecidableEq

/-- `{ ...train, ...modifications }`. -/
def applyMods (t : Train) (m : Modifications) : Train :=
  { _id := m._id.getD t._id
    trainsetId := m.trainsetId.getD t.trainsetId
    fitnessStatus := m.fitnessStatus.getD t.fitnessStatus
    maintenanceStatus := m.maintenanceStatus.getD t.maintenanceStatus
    maintenanceDue := m.maintenanceDue.getD t.maintenanceDue
    isAvailableForService := m.isAvailableForService.getD t.isAvailableForService
    currentMileage := m.currentMileage.getD t.currentMileage
    branding := m.branding.getD t.branding
    performanceScore := m.performanceScore.getD t.performanceScore
    reliabilityScore := m.reliabilityScore.getD t.reliabilityScore
    cleaningStatus := m.cleaningStatus.getD t.cleaningStatus }

/-- `modifiedTrains` of `fallbackSimulation` (lines 703-708): the overlay is
applied to every train matched by trainset code OR by opaque id. -/
def modifiedFleet (trains : List Train) (trainId : String) (m : Modifications) :
    List Train :=
  trains.map fun t =>
    if t.trainsetId == trainId || t._id == trainId then applyMods t m else t

/-- `impactAnalysis` (lines 724-728). -/
structure ImpactAnalysis where
  newRank : Option Nat
  rankChange : String
  affectedTrains : Nat
deriving DecidableEq

/-- `simulationParams` (lines 720-723). -/
structure SimulationParams where
  modifiedTrain : String
  modifications : Modifications
deriving DecidableEq

/-- The value returned by `fallbackSimulation` (lines 718-729). -/
structure SimulationResult where
  result : FallbackResult
  simulationParams : SimulationParams
  impactAnalysis : ImpactAnalysis
deriving DecidableEq

/-- `fallbackSimulation(trains, trainId, modifications, constraints)`
(lines 701-730).  Note the rank lookup (lines 714-716) compares `t.train`
— the stored train id — with `trainId`; both disjuncts of
`t.train === trainId || t.train.toString() === trainId` are the same string
comparison, so a target referenced by trainset code is never found. -/
def fallbackSimulation (trains : List Train) (trainId : String)
    (m : Modifications) (constraints : Constraints) (now : Int) :
    SimulationResult :=
  let result := fallbackOptimization (modifiedFleet trains trainId m) constraints now
  let modifiedTrainRank :=
    (result.rankedTrains.find? fun e => e.train == trainId).map RankedEntry.rank
  { result := result
    simulationParams := { modifiedTrain := trainId, modifications := m }
    impactAnalysis :=
      { newRank := modifiedTrainRank
        rankChange :=
          match modifiedTrainRank with
          | some r => "Moved to rank " ++ toString r
          | none => "Not in top rankings"
        affectedTrains := result.rankedTrains.length } }

/-- A well-formed body returned by the external optimizer service, before the
`|| default` mapping of `callAIOptimizer` (lines 556-563). -/
structure AIResponseData where
  rankedTrains : Option (List RankedEntry)
  alerts : Option (List Alert)
  metrics : Option OptimizationMetrics
  modelInfo : Option ModelInfo
deriving DecidableEq

/-- Outcome of the HTTP call to the external optimizer: a reply (whose body
`response.data` may be falsy), a connection refusal (`ECONNREFUSED`), or the
60-second deadline expiring (`ECONNABORTED`). -/
inductive AIOutcome where
  | response (data : Option AIResponseData)
  | refused
  | timedOut
deriving DecidableEq

/-- What `callAIOptimizer` hands back to the generate handler on success.
`metrics := none` models the bare `{}` placeholder of line 561. -/
structure AIResult where
  rankedTrains : List RankedEntry
  alerts : List Alert
  metrics : Option OptimizationMetrics
  modelInfo : ModelInfo
deriving DecidableEq

/-- The local optimizer's output, repackaged as the adapter result. -/
def toAIResult (f : FallbackResult) : AIResult :=
  { rankedTrains := f.rankedTrains, alerts := f.alerts,
    metrics := some f.metrics, modelInfo := f.modelInfo }

/-- `callAIOptimizer(trains, constraints)` (lines 544-578) as a function of
the network outcome.  Only `ECONNREFUSED` reaches the fallback path
(line 571); an empty body and a timeout are re-thrown as
`AI optimization failed: <message>`. -/
def callAIOptimizer (trains : List Train) (constraints : Constraints)
    (now : Int) : AIOutcome → Except String AIResult
  | .response (some d) => .ok
      { rankedTrains := d.rankedTrains.getD []
        alerts := d.alerts.getD []
        metrics := d.metrics
        modelInfo := d.modelInfo.getD
          { version := "unknown", algorithm := none, parameters := none } }
  | .response none => .error "AI optimization failed: Empty response from AI service"
  | .refused => .ok (toAIResult (fallbackOptimization trains constraints now))
  | .timedOut => .error "AI optimization failed: timeout of 60000ms exceeded"

/-- A stored induction plan (`inductionPlan.model.js`). -/
structure Plan where
  id : String
  planDate : Int
  status : String
  rankedTrains : List RankedEntry
  alerts : List Alert
  metrics : Option OptimizationMetrics
  modelInfo : ModelInfo
  generatedBy : String
deriving DecidableEq

/-- The plan collection, in insertion order. -/
abbrev PlanStore := List Plan

/-- `plan.save()` under the schema of `inductionPlan.model.js`, whose
`planDate` field is declared `unique: true` (lines 4-8): inserting a second
plan with an already-stored `planDate` is rejected with a duplicate-key
error. -/
def savePlan (store : PlanStore) (p : Plan) : Except String PlanStore :=
  if store.any fun q => q.planDate == p.planDate then
    .error "E11000 duplicate key error: planDate"
  else .ok (store ++ [p])

/-- The HTTP outcome of `POST /api/induction/generate`. -/
inductive GenerateResponse where
  | conflict (existingPlan : String)
  | noTrains
  | created (plan : Plan)
  | serverError (message : String)
deriving DecidableEq

/-- The body of the generate handler after the conflict pre-check
(lines 369-397): reject an empty fleet, call the adapter, build and save the
plan.  Errors from the adapter or from `plan.save()` land in the handler's
`catch` and surface as a 500. -/
def generateFresh (store : PlanStore) (planDate : Int) (trains : List Train)
    (constraints : Constraints) (userId newPlanId : String) (now : Int)
    (outcome : AIOutcome) : GenerateResponse × PlanStore :=
  if trains.isEmpty then (.noTrains, store)
  else
    match callAIOptimizer trains constraints now outcome with
    | .error msg => (.serverError msg, store)
    | .ok ai =>
      let plan : Plan :=
        { id := newPlanId, planDate := planDate, status := "FINALIZED",
          rankedTrains := ai.rankedTrains, alerts := ai.alerts,
          metrics := ai.metrics, modelInfo := ai.modelInfo,
          generatedBy := userId }
      match savePlan store plan with
      | .error msg => (.serverError msg, store)
      | .ok s => (.created plan, s)

/-- `POST /api/induction/generate` (lines 349-417): look up a FINALIZED plan
for `planDate`; when one exists and `forceRegenerate` is not set, answer 409
carrying the existing plan's id; otherwise proceed to generation. -/
def generate (store : PlanStore) (planDate : Int) (forceRegenerate : Bool)
    (trains : List Train) (constraints : Constraints)
    (userId newPlanId : String) (now : Int) (outcome : AIOutcome) :
    GenerateResponse × PlanStore :=
  match store.find? fun p => p.planDate == planDate && p.status == "FINALIZED" with
  | some existingPlan =>
    if !forceRegenerate then (.conflict existingPlan.id, store)
    else generateFresh store planDate trains constraints userId newPlanId now outcome
  | none => generateFresh store planDate trains constraints userId newPlanId now outcome

/-- Modelled from the spec (§4.1): `fitnessValid := train.fitness.valid ∧
train.fitness.expiry > now`; a train without a recorded expiry cannot have
`expiry > now`. -/
def specFitnessValid (now : Int) (t : Train) : Bool :=
  t.fitnessStatus.isValid &&
    (match t.fitnessStatus.expiryDate with
     | some e => decide (now < e)
     | none => false)

/-- Modelled from the spec (§4.1): `hardEligible := fitnessValid ∧
status = OPERATIONAL ∧ availableForService`. -/
def specHardEligible (now : Int) (t : Train) : Bool :=
  specFitnessValid now t && t.maintenanceStatus == "OPERATIONAL"
    && t.isAvailableForService

/-- Modelled from the spec, for comparison with the source: the score formula
exactly as claim C2 words it, with `meanMileage` the arithmetic mean of
`currentMileage` across the candidate pool (the trains passing the
hard-eligibility filter). -/
def claimScoreC2 (now : Int) (trains : List Train) (t : Train) : ℚ :=
  let pool := trains.filter (specHardEligible now)
  let meanMileage := (pool.map Train.currentMileage).sum / (pool.length : ℚ)
  (if specFitnessValid now t then (30 : ℚ) else 0)
    + (if t.maintenanceStatus == "OPERATIONAL" then 25 else 0)
    + (if !t.maintenanceDue then 10 else 0)
    + max 0 (15 - |t.currentMileage - meanMileage| / 1000)
    + (if t.branding.hasBranding then 2 * t.branding.brandingPriority else 0)
    + t.performanceScore / 10
    + t.reliabilityScore / 10
    + (if t.cleaningStatus == "CLEAN" then 5 else 0)

/-- Indicator of a decidable proposition, as a rational. -/
def ind (p : Prop) [Decidable p] : ℚ := if p then 1 else 0

/-- The score formula of claim C2 as amended: the mean is taken over the
ENTIRE input fleet, the branding factor uses the `|| 1` numeric default, and
the recorded score is the rounded value of this quantity. -/
def amendedScoreC2 (trains : List Train) (t : Train) : ℚ :=
  let meanAll := (trains.map Train.currentMileage).sum / (trains.length : ℚ)
  30 * ind (t.fitnessStatus.isValid = true)
    + 25 * ind (t.maintenanceStatus = "OPERATIONAL")
    + 10 * ind (t.maintenanceDue = false)
    + max 0 (15 - |t.currentMileage - meanAll| / 1000)
    + 2 * jsOr t.branding.brandingPriority 1 * ind (t.branding.hasBranding = true)
    + (t.performanceScore + t.reliabilityScore) / 10
    + 5 * ind (t.cleaningStatus = "CLEAN")

/-! ## Concrete fleets used for the closed evaluations -/

/-- A fully service-ready train with balanced data; its fallback score is
`30 + 25 + 10 + 15 + 0 + 0 + 0 + 5 = 85` when it is alone in the fleet. -/
def trainOK : Train :=
  { _id := "t-ok", trainsetId := "TS-01",
    fitnessStatus := { isValid := true, expiryDate := some 1000000000000 },
    maintenanceStatus := "OPERATIONAL", maintenanceDue := false,
    isAvailableForService := true, currentMileage := 5000,
    branding := { hasBranding := false, brandingPriority := 1 },
    performanceScore := 0, reliabilityScore := 0, cleaningStatus := "CLEAN" }

/-- A train whose fitness certificate is flagged `isValid` but expired one
day before the reference clock `now = 0`. -/
def trainExpired : Train :=
  { _id := "t-exp", trainsetId := "TS-02",
    fitnessStatus := { isValid := true, expiryDate := some (-86400000) },
    maintenanceStatus := "OPERATIONAL", maintenanceDue := false,
    isAvailableForService := true, currentMileage := 5000,
    branding := { hasBranding := false, brandingPriority := 1 },
    performanceScore := 0, reliabilityScore := 0, cleaningStatus := "CLEAN" }

/-- A non-eligible train (in maintenance) with a large mileage, used to
shift the whole-fleet mean away from the candidate-pool mean. -/
def trainShop : Train :=
  { _id := "t-shop", trainsetId := "TS-03",
    fitnessStatus := { isValid := true, expiryDate := some 1000000000000 },
    maintenanceStatus := "IN_MAINTENANCE", maintenanceDue := false,
    isAvailableForService := true, currentMileage := 30000,
    branding := { hasBranding := false, brandingPriority := 1 },
    performanceScore := 0, reliabilityScore := 0, cleaningStatus := "CLEAN" }

/-- An eligible train with mileage 0, paired with `trainShop` for the
mean-mileage counterexample. -/
def trainZero : Train :=
  { _id := "t-a", trainsetId := "TS-04",
    fitnessStatus := { isValid := true, expiryDate := some 1000000000000 },
    maintenanceStatus := "OPERATIONAL", maintenanceDue := false,
    isAvailableForService := true, currentMileage := 0,
    branding := { hasBranding := false, brandingPriority := 1 },
    performanceScore := 0, reliabilityScore := 0, cleaningStatus := "CLEAN" }

/-- First of two identical-scoring trains with distinct codes and ids. -/
def trainTieX : Train :=
  { _id := "x", trainsetId := "TS-05",
    fitnessStatus := { isValid := true, expiryDate := some 1000000000000 },
    maintenanceStatus := "OPERATIONAL", maintenanceDue := false,
    isAvailableForService := true, currentMileage := 5000,
    branding := { hasBranding := false, brandingPriority := 1 },
    performanceScore := 0, reliabilityScore := 0, cleaningStatus := "CLEAN" }

/-- Second of two identical-scoring trains with distinct codes and ids. -/
def trainTieY : Train :=
  { _id := "y", trainsetId := "TS-06",
    fitnessStatus := { isValid := true, expiryDate := some 1000000000000 },
    maintenanceStatus := "OPERATIONAL", maintenanceDue := false,
    isAvailableForService := true, currentMileage := 5000,
    branding := { hasBranding := false, brandingPriority := 1 },
    performanceScore := 0, reliabilityScore := 0, cleaningStatus := "CLEAN" }

/-- A train whose opaque id and trainset code differ, targeted by code in
the simulation evaluation. -/
def trainSim : Train :=
  { _id := "sim-id", trainsetId := "TS-07",
    fitnessStatus := { isValid := true, expiryDate := some 1000000000000 },
    maintenanceStatus := "OPERATIONAL", maintenanceDue := false,
    isAvailableForService := true, currentMileage := 5000,
    branding := { hasBranding := false, brandingPriority := 1 },
    performanceScore := 0, reliabilityScore := 0, cleaningStatus := "CLEAN" }

/-- A FINALIZED plan already stored for plan date `0`. -/
def planP : Plan :=
  { id := "plan-1", planDate := 0, status := "FINALIZED",
    rankedTrains := [], alerts := [], metrics := none,
    modelInfo := { version := "1.0-fallback",
                   algorithm := some "Rule-Based Weighted Scoring (Fallback)",
                   parameters := some [] },
    generatedBy := "user-1" }

/-- The single ranked entry produced for the fleet `[trainOK]`. -/
def entryOK : RankedEntry :=
  { train := "t-ok", rank := 1, confidenceScore := 85,
    constraints := fallbackEntryConstraints }

/-- The single ranked entry produced for the fleet `[trainSim]`. -/
def entrySim : RankedEntry :=
  { train := "sim-id", rank := 1, confidenceScore := 85,
    constraints := fallbackEntryConstraints }

/-! ## Generic lemmas about the embedded stable descending sort -/

theorem mem_jsInsertDesc {key : α → Int} {a x : α} :
    ∀ {l : List α}, x ∈ jsInsertDesc key a l ↔ x = a ∨ x ∈ l
  | [] => by simp [jsInsertDesc]
  | b :: l => by
    simp only [jsInsertDesc]
    split
    · simp
    · simp [mem_jsInsertDesc (l := l)]
      tauto

theorem pairwise_jsInsertDesc {key : α → Int} {a : α} :
    ∀ {l : List α}, l.Pairwise (fun p q => key q ≤ key p) →
      (jsInsertDesc key a l).Pairwise (fun p q => key q ≤ key p)
  | [], _ => by simp [jsInsertDesc]
  | b :: l, h => by
    rcases List.pairwise_cons.mp h with ⟨hb, hl⟩
    simp only [jsInsertDesc]
    split
    · rename_i hba
      exact List.pairwise_cons.mpr
        ⟨fun x hx => by
          rcases List.mem_cons.mp hx with rfl | hx
          · exact hba
          · exact le_trans (hb x hx) hba, h⟩
    · rename_i hba
      refine List.pairwise_cons.mpr ⟨fun x hx => ?_, pairwise_jsInsertDesc hl⟩
      rcases mem_jsInsertDesc.mp hx with rfl | hx
      · exact le_of_lt (lt_of_not_le hba)
      · exact hb x hx

theorem pairwise_jsSortDesc (key : α → Int) :
    ∀ (l : List α), (jsSortDesc key l).Pairwise (fun p q => key q ≤ key p)
  | [] => by simp [jsSortDesc]
  | a :: l => pairwise_jsInsertDesc (pairwise_jsSortDesc key l)

theorem filter_jsInsertDesc {key : α → Int} (s : Int) (a : α) :
    ∀ (l : List α),
      (jsInsertDesc key a l).filter (fun x => key x == s)
        = (if key a = s then [a] else [])
            ++ l.filter (fun x => key x == s)
  | [] => by
    by_cases h : key a = s
    · simp [jsInsertDesc, List.filter, h, beq_iff_eq]
    · have ha : (key a == s) = false := beq_eq_false_iff_ne.mpr h
      simp [jsInsertDesc, List.filter, h, ha]
  | b :: l => by
    simp only [jsInsertDesc]
    split
    · by_cases h : key a = s
      · simp [List.filter, h, beq_iff_eq]
      · have ha : (key a == s) = false := beq_eq_false_iff_ne.mpr h
        simp [List.filter, h, ha]
    · rename_i hba
      have hrec := @filter_jsInsertDesc α key s a l
      by_cases h : key a = s
      · have hb : ¬ key b = s := by
          intro hbs
          exact hba (le_of_eq (hbs.trans h.symm))
        have hbf : (key b == s) = false := beq_eq_false_iff_ne.mpr hb
        simp [List.filter, h, hbf, hrec]
      · by_cases hb : key b = s
        · have haf : (key a == s) = false := beq_eq_false_iff_ne.mpr h
          simp [List.filter, h, hb, haf, hrec, beq_iff_eq]
        · have haf : (key a == s) = false := beq_eq_false_iff_ne.mpr h
          have hbf : (key b == s) = false := beq_eq_false_iff_ne.mpr hb
          simp [List.filter, h, haf, hbf, hrec]

theorem filter_jsSortDesc (key : α → Int) (s : Int) :
    ∀ (l : List α),
      (jsSortDesc key l).filter (fun x => key x == s)
        = l.filter (fun x => key x == s)
  | [] => rfl
  | a :: l => by
    by_cases h : key a = s
    · simp [jsSortDesc, filter_jsInsertDesc, filter_jsSortDesc key s l,
        List.filter, h, beq_iff_eq]
    · have ha : (key a == s) = false := beq_eq_false_iff_ne.mpr h
      simp [jsSortDesc, filter_jsInsertDesc, filter_jsSortDesc key s l,
        List.filter, h, ha]

theorem length_jsInsertDesc {key : α → Int} (a : α) :
    ∀ (l : List α), (jsInsertDesc key a l).length = l.length + 1
  | [] => rfl
  | b :: l => by
    simp only [jsInsertDesc]
    split
    · rfl
    · simp [length_jsInsertDesc a l]

theorem length_jsSortDesc (key : α → Int) :
    ∀ (l : List α), (jsSortDesc key l).length = l.length
  | [] => rfl
  | a :: l => by
    simp [jsSortDesc, length_jsInsertDesc, length_jsSortDesc key l]

/-! ## Lemmas about rank assignment and entry packaging -/

theorem mem_toRankedEntries {e : RankedEntry} :
    ∀ {i : Nat} {l : List ScoredTrain}, e ∈ toRankedEntries i l →
      ∃ s ∈ l, e.train = s.train ∧ e.confidenceScore = confClamp s.score
        ∧ e.constraints = fallbackEntryConstraints
  | _, [], h => by simp [toRankedEntries] at h
  | i, s :: l, h => by
    rcases List.mem_cons.mp h with rfl | h
    · exact ⟨s, List.mem_cons_self s l, rfl, rfl, rfl⟩
    · rcases mem_toRankedEntries h with ⟨u, hu, hs⟩
      exact ⟨u, List.mem_cons_of_mem s hu, hs⟩

theorem map_train_toRankedEntries :
    ∀ (i : Nat) (l : List ScoredTrain),
      (toRankedEntries i l).map RankedEntry.train = l.map ScoredTrain.train
  | _, [] => rfl
  | i, s :: l => by
    simp [toRankedEntries, map_train_toRankedEntries (i + 1) l]

theorem map_rank_toRankedEntries :
    ∀ (i : Nat) (l : List ScoredTrain),
      (toRankedEntries i l).map RankedEntry.rank = List.range' i l.length
  | _, [] => rfl
  | i, s :: l => by
    simp [toRankedEntries, map_rank_toRankedEntries (i + 1) l, List.range']

theorem length_toRankedEntries :
    ∀ (i : Nat) (l : List ScoredTrain),
      (toRankedEntries i l).length = l.length
  | _, [] => rfl
  | i, s :: l => by simp [toRankedEntries, length_toRankedEntries (i + 1) l]

theorem mem_scoredTrains {s : ScoredTrain} {trains : List Train}
    (h : s ∈ scoredTrains trains) :
    ∃ t ∈ trains, serviceReady t = true
      ∧ s.train = t._id ∧ s.score = jsRound (rawScore trains t) := by
  rcases List.mem_map.mp h with ⟨t, ht, rfl⟩
  rcases List.mem_filter.mp ht with ⟨htm, hsr⟩
  exact ⟨t, htm, hsr, rfl, rfl⟩

theorem mem_jsSortDesc {key : α → Int} {x : α} :
    ∀ {l : List α}, x ∈ jsSortDesc key l ↔ x ∈ l
  | [] => Iff.rfl
  | a :: l => by
    simp [jsSortDesc, mem_jsInsertDesc, mem_jsSortDesc (l := l)]

/-- The fallback score accumulation is exactly the amended C2 formula. -/
theorem rawScore_eq_amendedScoreC2 (trains : List Train) (t : Train) :
    rawScore trains t = amendedScoreC2 trains t := by
  simp only [rawScore, amendedScoreC2, avgMileage, ind, beq_iff_eq,
    Bool.not_eq_true']
  split_ifs <;> ring

/-- `Math.min(100, Math.max(60, s))` always lands in the 60–100 band. -/
theorem confClamp_band (s : Int) : 60 ≤ confClamp s ∧ confClamp s ≤ 100 := by
  unfold confClamp
  omega

/-! ## Evaluations of the embedded optimizer on the concrete fleets -/

theorem scored_trainOK : scoredTrains [trainOK] = [{ train := "t-ok", score := 85 }] := by
  simp [scoredTrains, serviceReady, trainOK, rawScore, avgMileage, jsOr, jsRound]
  norm_num

theorem alerts_trainOK : generateAlerts 0 [trainOK] = [] := by
  have hd : daysUntilExpiry 1000000000000 0 = 11574 := by decide
  simp [generateAlerts, trainAlerts, fitnessAlerts, trainOK, hd, jsSortDesc]

theorem fallback_trainOK :
    fallbackOptimization [trainOK] [] 0 =
      { rankedTrains := [entryOK],
        alerts := [],
        metrics := { totalTrainsEvaluated := 1, constraintsSatisfied := 1,
                     averageConfidence := some 85, processingTimeMs := 0 },
        modelInfo := { version := "1.0-fallback",
                       algorithm := some "Rule-Based Weighted Scoring (Fallback)",
                       parameters := some [] } } := by
  unfold fallbackOptimization
  rw [scored_trainOK, alerts_trainOK]
  norm_num [jsSortDesc, jsInsertDesc, toRankedEntries, confClamp, entryOK,
    min_def, max_def]

theorem scored_trainExpired :
    scoredTrains [trainExpired] = [{ train := "t-exp", score := 85 }] := by
  simp [scoredTrains, serviceReady, trainExpired, rawScore, avgMileage, jsOr, jsRound]
  norm_num

theorem scored_tieXY :
    scoredTrains [trainTieX, trainTieY]
      = [{ train := "x", score := 85 }, { train := "y", score := 85 }] := by
  simp [scoredTrains, serviceReady, trainTieX, trainTieY, rawScore, avgMileage,
    jsOr, jsRound]
  norm_num

theorem scored_tieYX :
    scoredTrains [trainTieY, trainTieX]
      = [{ train := "y", score := 85 }, { train := "x", score := 85 }] := by
  simp [scoredTrains, serviceReady, trainTieX, trainTieY, rawScore, avgMileage,
    jsOr, jsRound]
  norm_num

theorem scored_zero_shop :
    scoredTrains [trainZero, trainShop] = [{ train := "t-a", score := 70 }] := by
  simp [scoredTrains, serviceReady, trainZero, trainShop, rawScore, avgMileage,
    jsOr, jsRound]
  norm_num

theorem claimScore_zero :
    claimScoreC2 0 [trainZero, trainShop] trainZero = 85 := by
  simp [claimScoreC2, specHardEligible, specFitnessValid, trainZero, trainShop]
  norm_num

theorem scored_trainShop : scoredTrains [trainShop] = [] := by
  simp [scoredTrains, serviceReady, trainShop]

theorem scored_trainSim :
    scoredTrains [trainSim] = [{ train := "sim-id", score := 85 }] := by
  simp [scoredTrains, serviceReady, trainSim, rawScore, avgMileage, jsOr, jsRound]
  norm_num

/-! ## The claims -/

/-- C1: the claim says every ranked train satisfies `hardEligible`, so that no
train with an already-expired fitness certificate is ever ranked.  The code
evaluated at the failing input: `trainExpired` has `isValid = true` but its
certificate expired one day before `now = 0`, so it fails the spec's
`fitnessValid`/`hardEligible` — yet `fallbackOptimization` (whose filter never
reads `expiryDate`) ranks it first. -/
theorem C1_expired_train_is_ranked :
    specFitnessValid 0 trainExpired = false
    ∧ specHardEligible 0 trainExpired = false
    ∧ (fallbackOptimization [trainExpired] [] 0).rankedTrains.map RankedEntry.train
        = [trainExpired._id] := by
  refine ⟨by decide, by decide, ?_⟩
  unfold fallbackOptimization
  rw [scored_trainExpired]
  simp [jsSortDesc, jsInsertDesc, toRankedEntries, trainExpired]

/-- C2 counterexample: with the eligible `trainZero` (mileage 0) and the
ineligible `trainShop` (mileage 30000), the candidate pool is `[trainZero]`
with pool mean 0, so the claim's formula gives 85; the code averages over the
whole fleet (mean 15000) and records score 70. -/
theorem C2_pool_mean_counterexample :
    scoredTrains [trainZero, trainShop] = [{ train := "t-a", score := 70 }]
    ∧ claimScoreC2 0 [trainZero, trainShop] trainZero = 85
    ∧ jsRound (claimScoreC2 0 [trainZero, trainShop] trainZero) ≠ 70 := by
  refine ⟨scored_zero_shop, claimScore_zero, ?_⟩
  rw [claimScore_zero]
  norm_num [jsRound]

/-- C2 amended: for every train passing the code's eligibility filter, the
recorded score is the ROUNDED value of the weighted formula in which
`meanMileage` is the arithmetic mean of `currentMileage` over the ENTIRE
input fleet (eligible or not) and the branding factor uses the `|| 1`
default. -/
theorem C2_score_formula_amended (trains : List Train) (t : Train)
    (ht : t ∈ trains) (h : serviceReady t = true) :
    ∃ s ∈ scoredTrains trains, s.train = t._id
      ∧ s.score = jsRound (amendedScoreC2 trains t) := by
  refine ⟨{ train := t._id, score := jsRound (rawScore trains t) }, ?_, rfl, ?_⟩
  · exact List.mem_map.mpr ⟨t, List.mem_filter.mpr ⟨ht, h⟩, rfl⟩
  · simp [rawScore_eq_amendedScoreC2]

theorem C2_score_formula_witness :
    ∃ s ∈ scoredTrains [trainOK], s.train = trainOK._id
      ∧ s.score = jsRound (amendedScoreC2 [trainOK] trainOK) :=
  C2_score_formula_amended [trainOK] trainOK (by simp) (by decide)

/-- C3 counterexample: `trainTieX` (id x, code TS-05) and `trainTieY` (id y,
code TS-06) score identically; the code's sort has no tiebreak and is stable,
so the two input orders produce two different rankings — the claimed
code-ascending tiebreak and input-order independence both fail. -/
theorem C3_tie_order_counterexample :
    (fallbackOptimization [trainTieX, trainTieY] [] 0).rankedTrains.map
        RankedEntry.train = ["x", "y"]
    ∧ (fallbackOptimization [trainTieY, trainTieX] [] 0).rankedTrains.map
        RankedEntry.train = ["y", "x"]
    ∧ (fallbackOptimization [trainTieX, trainTieY] [] 0).rankedTrains
        ≠ (fallbackOptimization [trainTieY, trainTieX] [] 0).rankedTrains := by
  have h1 : (fallbackOptimization [trainTieX, trainTieY] [] 0).rankedTrains.map
      RankedEntry.train = ["x", "y"] := by
    unfold fallbackOptimization
    rw [scored_tieXY]
    simp [jsSortDesc, jsInsertDesc, toRankedEntries]
  have h2 : (fallbackOptimization [trainTieY, trainTieX] [] 0).rankedTrains.map
      RankedEntry.train = ["y", "x"] := by
    unfold fallbackOptimization
    rw [scored_tieYX]
    simp [jsSortDesc, jsInsertDesc, toRankedEntries]
  refine ⟨h1, h2, fun hcontra => ?_⟩
  rw [hcontra, h2] at h1
  simp at h1

/-- C3 amended: the optimizer sorts the scored candidates by score descending
STABLY (candidates with equal scores keep their input order; there is no
trainset-code tiebreak), so the ranking is a function of the ordered input
list: the output lists the sorted candidates with dense 1-based ranks, the
sorted scores are non-increasing, and each equal-score class appears in
input order. -/
theorem C3_stable_sort_amended (trains : List Train) (c : Constraints)
    (now : Int) :
    ((fallbackOptimization trains c now).rankedTrains.map RankedEntry.train
        = (jsSortDesc ScoredTrain.score (scoredTrains trains)).map ScoredTrain.train)
    ∧ (jsSortDesc ScoredTrain.score (scoredTrains trains)).Pairwise
        (fun p q => q.score ≤ p.score)
    ∧ (∀ s : Int,
        (jsSortDesc ScoredTrain.score (scoredTrains trains)).filter
            (fun x => x.score == s)
          = (scoredTrains trains).filter (fun x => x.score == s))
    ∧ (fallbackOptimization trains c now).rankedTrains.map RankedEntry.rank
        = List.range' 1 (scoredTrains trains).length := by
  refine ⟨?_, pairwise_jsSortDesc _ _, fun s => filter_jsSortDesc _ s _, ?_⟩
  · show (toRankedEntries 1 (jsSortDesc ScoredTrain.score (scoredTrains trains))).map
        RankedEntry.train = _
    exact map_train_toRankedEntries 1 _
  · show (toRankedEntries 1 (jsSortDesc ScoredTrain.score (scoredTrains trains))).map
        RankedEntry.rank = _
    rw [map_rank_toRankedEntries, length_jsSortDesc]

/-- C4: the code evaluated at the failing input.  With the FINALIZED plan
`planP` stored for plan date 0, Generate without force answers the conflict
carrying `planP`'s id and stores nothing — that half of the claim holds.  But
Generate WITH `forceRegenerate = true` does not append a second plan: the
schema declares `planDate` `unique: true`, so `plan.save()` is rejected with a
duplicate-key error, the handler's catch turns it into a 500, and the store is
unchanged. -/
theorem C4_force_regenerate_broken :
    generate [planP] 0 false [trainOK] [] "user-1" "plan-2" 0 .refused
      = (.conflict "plan-1", [planP])
    ∧ generate [planP] 0 true [trainOK] [] "user-1" "plan-2" 0 .refused
      = (.serverError "E11000 duplicate key error: planDate", [planP]) := by
  constructor
  · simp [generate, planP]
  · simp [generate, generateFresh, planP, callAIOptimizer, savePlan]

/-- C5 counterexample: a timeout does NOT reach the fallback path — the
adapter re-throws and the handler fails — and even on connection refusal the
persisted algorithm string is `"Rule-Based Weighted Scoring (Fallback)"`,
not the claimed `"Rule-Based Weighted Scoring"`. -/
theorem C5_fallback_policy_counterexample :
    callAIOptimizer [trainOK] [] 0 .timedOut
        = .error "AI optimization failed: timeout of 60000ms exceeded"
    ∧ (fallbackOptimization [trainOK] [] 0).modelInfo.algorithm
        = some "Rule-Based Weighted Scoring (Fallback)"
    ∧ (fallbackOptimization [trainOK] [] 0).modelInfo.algorithm
        ≠ some "Rule-Based Weighted Scoring" := by
  refine ⟨rfl, ?_, ?_⟩
  · rw [fallback_trainOK]
  · rw [fallback_trainOK]
    simp

/-- C5 amended: ONLY a connection refusal (`ECONNREFUSED`) invokes the local
rule-based optimizer, whose output (with
`modelInfo.algorithm = "Rule-Based Weighted Scoring (Fallback)"`) is returned
unchanged; a timeout or an empty response body is re-thrown as an error and
no fallback runs. -/
theorem C5_fallback_policy_amended (trains : List Train) (c : Constraints)
    (now : Int) :
    callAIOptimizer trains c now .refused
        = .ok (toAIResult (fallbackOptimization trains c now))
    ∧ (fallbackOptimization trains c now).modelInfo.algorithm
        = some "Rule-Based Weighted Scoring (Fallback)"
    ∧ callAIOptimizer trains c now .timedOut
        = .error "AI optimization failed: timeout of 60000ms exceeded"
    ∧ callAIOptimizer trains c now (.response none)
        = .error "AI optimization failed: Empty response from AI service" :=
  ⟨rfl, rfl, rfl, rfl⟩

/-- C6 counterexample: with the single ineligible `trainShop`, the ranking is
empty and `averageConfidence` is the `NaN` of `0 / 0` (modelled `none`),
not the claimed `0`. -/
theorem C6_nan_average_counterexample :
    (fallbackOptimization [trainShop] [] 0).rankedTrains = []
    ∧ (fallbackOptimization [trainShop] [] 0).metrics.averageConfidence = none
    ∧ (fallbackOptimization [trainShop] [] 0).metrics.averageConfidence
        ≠ some 0 := by
  refine ⟨?_, ?_, ?_⟩ <;>
    (unfold fallbackOptimization; rw [scored_trainShop];
      simp [jsSortDesc, toRankedEntries])

/-- C6 amended: when no input train passes the eligibility filter, the
optimizer still returns without raising: `rankedTrains` is empty,
`totalTrainsEvaluated` is the input size, `constraintsSatisfied` is 0, and
`averageConfidence` is the `NaN` of `0 / 0` (modelled as `none`), NOT `0`. -/
theorem C6_empty_pool_amended (trains : List Train) (c : Constraints)
    (now : Int) (h : ∀ t ∈ trains, serviceReady t = false) :
    (fallbackOptimization trains c now).rankedTrains = []
    ∧ (fallbackOptimization trains c now).metrics.totalTrainsEvaluated
        = trains.length
    ∧ (fallbackOptimization trains c now).metrics.constraintsSatisfied = 0
    ∧ (fallbackOptimization trains c now).metrics.averageConfidence = none := by
  have hf : trains.filter serviceReady = [] := by
    rw [List.filter_eq_nil_iff]
    intro t ht
    simp [h t ht]
  have hs : scoredTrains trains = [] := by simp [scoredTrains, hf]
  refine ⟨?_, ?_, ?_, ?_⟩ <;>
    simp [fallbackOptimization, hs, jsSortDesc, toRankedEntries]

theorem C6_empty_pool_witness :
    (fallbackOptimization [trainShop] [] 5).rankedTrains = []
    ∧ (fallbackOptimization [trainShop] [] 5).metrics.totalTrainsEvaluated = 1
    ∧ (fallbackOptimization [trainShop] [] 5).metrics.constraintsSatisfied = 0
    ∧ (fallbackOptimization [trainShop] [] 5).metrics.averageConfidence
        = none := by
  have h := C6_empty_pool_amended [trainShop] [] 5 (by
    intro t ht
    rw [List.mem_singleton.mp ht]
    decide)
  exact ⟨h.1, h.2.1, h.2.2.1, h.2.2.2⟩

/-- C7: for every train with a fitness expiry date the generator emits at most
one fitness alert, following exactly the claimed thresholds on
`daysToExpiry = ⌊(expiry − now) / 1 day⌋` — negative: CRITICAL severity 5
"has expired"; 0..3: CRITICAL severity 5 "expires in d days"; 4..7: WARNING
severity 3; above 7: nothing — and the full alert list is sorted by severity
descending. -/
theorem C7_fitness_alert_rules (now : Int) (trains : List Train) (t : Train) :
    (fitnessAlerts now t =
      match t.fitnessStatus.expiryDate with
      | none => []
      | some expiry =>
        if daysUntilExpiry expiry now < 0 then
          [{ type := "CRITICAL",
             message := t.trainsetId ++ " fitness certificate has expired",
             trainId := t.trainsetId, severity := 5 }]
        else if daysUntilExpiry expiry now ≤ 3 then
          [{ type := "CRITICAL",
             message := t.trainsetId ++ " fitness certificate expires in "
               ++ toString (daysUntilExpiry expiry now) ++ " days",
             trainId := t.trainsetId, severity := 5 }]
        else if daysUntilExpiry expiry now ≤ 7 then
          [{ type := "WARNING",
             message := t.trainsetId ++ " fitness certificate expires in "
               ++ toString (daysUntilExpiry expiry now) ++ " days",
             trainId := t.trainsetId, severity := 3 }]
        else [])
    ∧ (fitnessAlerts now t).length ≤ 1
    ∧ (generateAlerts now trains).Pairwise (fun p q => q.severity ≤ p.severity) := by
  refine ⟨?_, ?_, ?_⟩
  · unfold fitnessAlerts
    cases t.fitnessStatus.expiryDate with
    | none => rfl
    | some e =>
      simp only []
      split_ifs <;> first | rfl | omega
  · unfold fitnessAlerts
    cases t.fitnessStatus.expiryDate with
    | none => simp
    | some e =>
      simp only []
      split_ifs <;> simp
  · have h := pairwise_jsSortDesc (fun a => (a.severity : Int))
      (trains.flatMap (trainAlerts now))
    exact h.imp fun hpq => by exact_mod_cast hpq

/-- C8: every ranked entry's confidence is `min(100, max(60, round(score)))`
for the score of a service-ready train of the input, hence always in the
60–100 band; the clamp of the rounded score is monotone in the raw score; and
any raw score at or below zero yields confidence exactly 60. -/
theorem C8_confidence_clamp (trains : List Train) (c : Constraints)
    (now : Int) :
    (∀ e ∈ (fallbackOptimization trains c now).rankedTrains,
        (60 ≤ e.confidenceScore ∧ e.confidenceScore ≤ 100)
          ∧ ∃ t ∈ trains, serviceReady t = true ∧ e.train = t._id
              ∧ e.confidenceScore = confClamp (jsRound (rawScore trains t)))
    ∧ (∀ q₁ q₂ : ℚ, q₁ ≤ q₂ → confClamp (jsRound q₁) ≤ confClamp (jsRound q₂))
    ∧ (∀ q : ℚ, q ≤ 0 → confClamp (jsRound q) = 60) := by
  refine ⟨?_, ?_, ?_⟩
  · intro e he
    have he' : e ∈ toRankedEntries 1
        (jsSortDesc ScoredTrain.score (scoredTrains trains)) := he
    obtain ⟨s, hs, htr, hcs, _⟩ := mem_toRankedEntries he'
    obtain ⟨t, htm, hsr, hid, hsc⟩ := mem_scoredTrains (mem_jsSortDesc.mp hs)
    refine ⟨hcs ▸ confClamp_band s.score, t, htm, hsr, htr.trans hid, ?_⟩
    rw [hcs, hsc]
  · intro q₁ q₂ h
    have hf : jsRound q₁ ≤ jsRound q₂ := Int.floor_le_floor (by linarith)
    unfold confClamp
    omega
  · intro q h
    have hhalf : (⌊(1/2 : ℚ)⌋ : Int) = 0 := by norm_num
    have hf : jsRound q ≤ 0 := by
      unfold jsRound
      calc ⌊q + 1/2⌋ ≤ ⌊(1/2 : ℚ)⌋ := Int.floor_le_floor (by linarith)
        _ = 0 := hhalf
    unfold confClamp
    omega

theorem C8_confidence_witness :
    (60 ≤ entryOK.confidenceScore ∧ entryOK.confidenceScore ≤ 100)
    ∧ confClamp (jsRound (1 : ℚ)) ≤ confClamp (jsRound (2 : ℚ))
    ∧ confClamp (jsRound (-5 : ℚ)) = 60 := by
  have h := C8_confidence_clamp [trainOK] [] 0
  have hm : entryOK ∈ (fallbackOptimization [trainOK] [] 0).rankedTrains := by
    rw [fallback_trainOK]
    exact List.mem_singleton.mpr rfl
  exact ⟨(h.1 _ hm).1, h.2.1 1 2 (by norm_num), h.2.2 (-5) (by norm_num)⟩

/-- C9: the claim says `impactAnalysis.newRank` equals the target's rank
whenever the target — referenced by code or by id — appears in the recomputed
ranking, and is null exactly when it was filtered out.  The code evaluated at
the failing input: `trainSim` (id `sim-id`, code `TS-07`) is referenced by its
code; the modification matcher accepts the code, the train is ranked first,
yet the rank lookup compares the reference only against stored ids, so
`newRank` is null and the impact text reads "Not in top rankings". -/
theorem C9_code_reference_rank_lost :
    (fallbackSimulation [trainSim] "TS-07" {} [] 0).result.rankedTrains.map
        RankedEntry.train = ["sim-id"]
    ∧ (fallbackSimulation [trainSim] "TS-07" {} [] 0).impactAnalysis.newRank
        = none
    ∧ (fallbackSimulation [trainSim] "TS-07" {} [] 0).impactAnalysis.rankChange
        = "Not in top rankings" := by
  have hm : modifiedFleet [trainSim] "TS-07" ({} : Modifications) = [trainSim] := by
    simp [modifiedFleet, applyMods, trainSim]
  have hr : (fallbackOptimization [trainSim] [] 0).rankedTrains = [entrySim] := by
    unfold fallbackOptimization
    rw [scored_trainSim]
    norm_num [jsSortDesc, jsInsertDesc, toRankedEntries, confClamp, entrySim,
      min_def, max_def]
  refine ⟨?_, ?_, ?_⟩
  · show (fallbackOptimization (modifiedFleet [trainSim] "TS-07" {}) [] 0).rankedTrains.map
        RankedEntry.train = ["sim-id"]
    rw [hm, hr]
    simp [entrySim]
  · show ((fallbackOptimization (modifiedFleet [trainSim] "TS-07" {}) [] 0).rankedTrains.find?
        (fun e => e.train == "TS-07")).map RankedEntry.rank = none
    rw [hm, hr]
    simp [entrySim, List.find?]
  · show (match ((fallbackOptimization (modifiedFleet [trainSim] "TS-07" {}) [] 0).rankedTrains.find?
          (fun e => e.train == "TS-07")).map RankedEntry.rank with
      | some r => "Moved to rank " ++ toString r
      | none => "Not in top rankings") = "Not in top rankings"
    rw [hm, hr]
    simp [entrySim, List.find?]

/-- C10: every ranked entry of the fallback optimizer carries the constant
constraints record `{ fitnessValid := true, maintenanceReady := true,
cleaningStatus := "CLEAN" }` with no `brandingPriority` or `mileageBalance`
value, regardless of the train's actual state. -/
theorem C10_constant_constraints (trains : List Train) (c : Constraints)
    (now : Int) :
    ∀ e ∈ (fallbackOptimization trains c now).rankedTrains,
      e.constraints = { fitnessValid := true, maintenanceReady := true,
                        cleaningStatus := "CLEAN", brandingPriority := none,
                        mileageBalance := none } := by
  intro e he
  have he' : e ∈ toRankedEntries 1
      (jsSortDesc ScoredTrain.score (scoredTrains trains)) := he
  obtain ⟨s, _, _, _, hc⟩ := mem_toRankedEntries he'
  exact hc

theorem C10_constraints_witness :
    entryOK.constraints
      = { fitnessValid := true, maintenanceReady := true,
          cleaningStatus := "CLEAN", brandingPriority := none,
          mileageBalance := none } := by
  have hm : entryOK ∈ (fallbackOptimization [trainOK] [] 0).rankedTrains := by
    rw [fallback_trainOK]
    exact List.mem_singleton.mpr rfl
  exact C10_constant_constraints [trainOK] [] 0 _ hm

end SIH
